import Mathlib

/-!
# Payroll system (`server.js`): credential lifecycle, access gate, payroll run

A shallow embedding of the handlers of `server.js` that the specification talks
about (`auth`, `POST /api/register`, `POST /api/login`, `POST /api/payroll`),
followed by theorems about them.

* JavaScript `Number`s are IEEE-754 binary64 values; `*`, `+` and `-` are the
  correctly rounded (round-to-nearest, ties-to-even) operations.  They are
  modelled exactly, on sign / integer significand / binary exponent triples.
* The MySQL database is explicit state (`Db`); every call of the helper `q` can
  fail with a driver error chosen by the environment.  A handler runs from its
  first statement to its last without another request running in between.
* `jsonwebtoken` and `bcryptjs` are libraries outside the program: their entry
  points are parameters of the handlers that call them.
-/

namespace Payroll

/-! ## IEEE-754 binary64, the arithmetic of JavaScript numbers -/

/-- A binary64 value.  `fin neg m e` is the finite number `(-1)^neg * m * 2^e`,
kept in the canonical form of the format: `m < 2^53`, `-1074 ≤ e ≤ 971`, and
`2^52 ≤ m` unless `e = -1074` (subnormals and the two zeros). -/
inductive F64 where
  | nan : F64
  | inf (neg : Bool) : F64
  | fin (neg : Bool) (m : Nat) (e : Int) : F64
  deriving DecidableEq, Repr

namespace F64

/-- Floor of the binary logarithm of `n` (and `0` for `n = 0`), by halving;
the first argument bounds the number of halvings. -/
def log2Aux : Nat → Nat → Nat
  | 0, _ => 0
  | fuel + 1, n => if n < 2 then 0 else log2Aux fuel (n / 2) + 1

/-- Floor of the binary logarithm of `n`. -/
def log2 (n : Nat) : Nat := log2Aux n n

/-- Floor of the binary logarithm of the positive rational `n / d`. -/
def ilog2 (n d : Nat) : Int :=
  let l : Int := (log2 n : Int) - (log2 d : Int)
  let below : Bool :=
    if 0 ≤ l then decide (n < d * 2 ^ l.toNat) else decide (n * 2 ^ (-l).toNat < d)
  if below then l - 1 else l

/-- Round the non-negative rational `n / d` (with `0 < d`) to binary64, to
nearest with ties to even, and attach the sign `neg`. -/
def roundNearestEven (neg : Bool) (n d : Nat) : F64 :=
  if n = 0 then fin neg 0 (-1074)
  else
    let u : Int := max (ilog2 n d - 52) (-1074)
    let num : Nat := if 0 ≤ u then n else n * 2 ^ (-u).toNat
    let den : Nat := if 0 ≤ u then d * 2 ^ u.toNat else d
    let qt := num / den
    let rem := num % den
    let m : Nat :=
      if 2 * rem < den then qt
      else if den < 2 * rem then qt + 1
      else if qt % 2 = 0 then qt else qt + 1
    let m1 : Nat := if m = 2 ^ 53 then 2 ^ 52 else m
    let e1 : Int := if m = 2 ^ 53 then u + 1 else u
    if 971 < e1 then inf neg else fin neg m1 e1

/-- Round the dyadic number `m * 2^e`. -/
def roundDyadic (neg : Bool) (m : Nat) (e : Int) : F64 :=
  if 0 ≤ e then roundNearestEven neg (m * 2 ^ e.toNat) 1
  else roundNearestEven neg m (2 ^ (-e).toNat)

/-- The value of a decimal literal `n / d` of the source text, such as `0.15`. -/
def ofDecimal (n d : Nat) : F64 := roundNearestEven false n d

/-- The number value of a non-negative integer. -/
def ofNat (n : Nat) : F64 := roundNearestEven false n 1

/-- Unary minus. -/
def neg : F64 → F64
  | nan => nan
  | inf s => inf (!s)
  | fin s m e => fin (!s) m e

/-- JavaScript `x * y`. -/
def mul : F64 → F64 → F64
  | nan, _ => nan
  | _, nan => nan
  | inf s, inf t => inf (xor s t)
  | inf s, fin t m _ => if m = 0 then nan else inf (xor s t)
  | fin s m _, inf t => if m = 0 then nan else inf (xor s t)
  | fin s m e, fin t k f => roundDyadic (xor s t) (m * k) (e + f)

/-- JavaScript `x + y`. -/
def add : F64 → F64 → F64
  | nan, _ => nan
  | _, nan => nan
  | inf s, inf t => if s = t then inf s else nan
  | inf s, fin _ _ _ => inf s
  | fin _ _ _, inf t => inf t
  | fin s m e, fin t k f =>
    let g : Int := min e f
    let a : Int := (if s then -1 else 1) * ((m * 2 ^ (e - g).toNat : Nat) : Int)
    let b : Int := (if t then -1 else 1) * ((k * 2 ^ (f - g).toNat : Nat) : Int)
    let c : Int := a + b
    if c = 0 then fin (s && t) 0 (-1074)
    else roundDyadic (decide (c < 0)) c.natAbs g

/-- JavaScript `x - y`. -/
def sub (x y : F64) : F64 := add x (neg y)

/-- The real (here: rational) number a binary64 value denotes, if it is finite. -/
def toRat : F64 → Option ℚ
  | nan => none
  | inf _ => none
  | fin s m e => some ((if s then -1 else 1) * (m : ℚ) * (2 : ℚ) ^ e)

end F64

/-! ## Strings -/

/-- Cut a character sequence at every space: the pieces of `s.split(" ")`. -/
def splitChars : List Char → List (List Char)
  | [] => [[]]
  | c :: cs =>
    if c = ' ' then [] :: splitChars cs
    else
      match splitChars cs with
      | [] => [[c]]
      | seg :: segs => (c :: seg) :: segs

/-- JavaScript `s.split(" ")`. -/
def split (s : String) : List String := (splitChars s.data).map String.mk

/-- JavaScript `s.slice(a, b)` for indices `0 ≤ a ≤ b`. -/
def slice (s : String) (a b : Nat) : String := String.mk ((s.data.drop a).take (b - a))

/-! ## Access gate (`auth`) -/

/-- The signing key, `const SECRET`. -/
def SECRET : String := "NEHA_2025_SECRET"

/-- The part of an incoming request the gate reads: `req.headers.authorization`,
`none` when the header is absent. -/
structure Request where
  authorization : Option String
  deriving DecidableEq, Repr

/-- Everything `auth` does, as a record: the status and message it responds with
(if it responds), the identity it stores in `req.user`, how often it calls
`next`, and the tokens it hands to `jwt.verify`. -/
structure Gate (κ : Type) where
  status : Option Nat
  message : Option String
  user : Option κ
  nextCalls : Nat
  verified : List String
  deriving DecidableEq, Repr

/-- The value of `req.headers.authorization?.split(" ")[1]`; `none` stands for
`undefined`. -/
def bearer (req : Request) : Option String :=
  req.authorization.bind fun h => (split h)[1]?

/-- The middleware `auth(req, res, next)`.  `verify token key` is
`jwt.verify(token, key)`, with `none` when it throws; `next()` returns normally. -/
def auth {κ : Type} (verify : String → String → Option κ) (req : Request) : Gate κ :=
  match bearer req with
  | none => ⟨some 401, some "No Token Found", none, 0, []⟩
  | some token =>
    if token = "" then ⟨some 401, some "No Token Found", none, 0, []⟩
    else
      match verify token SECRET with
      | some decoded => ⟨none, none, some decoded, 1, [token]⟩
      | none => ⟨some 401, some "Invalid Token", none, 0, [token]⟩

/-! ## Database -/

/-- A driver error; `code` is `err.code`. -/
structure DbError where
  code : String
  deriving DecidableEq, Repr

/-- A row of table `users`. -/
structure User where
  id : Nat
  name : String
  email : String
  password : String
  role : String
  deriving DecidableEq, Repr

/-- A row of table `employees`, with the columns the payroll run reads;
`basic_salary` is the column as `Number(e.basic_salary)` sees it. -/
structure Employee where
  id : Nat
  basic_salary : F64
  deriving DecidableEq, Repr

/-- The columns written by the `INSERT INTO payroll` statement. -/
structure PayrollRecord where
  employee_id : Nat
  month : String
  basic : F64
  hra : F64
  da : F64
  pf : F64
  tds : F64
  net_salary : F64
  deriving DecidableEq, Repr

/-- The tables of `payrolldb` that the modelled handlers touch. -/
structure Db where
  users : List User
  employees : List Employee
  payroll : List PayrollRecord
  deriving DecidableEq, Repr

/-- Modelled from the spec: the schema of table `users` is not part of the
source; the specification gives it an auto-generated id and a uniqueness
constraint on `email`, whose violation the driver reports as `ER_DUP_ENTRY`.
`q("INSERT INTO users(name,email,password,role) VALUES (?,?,?,?)", ...)`;
`fault` is an error injected by the environment (connection lost, ...). -/
def qInsertUser (fault : Option DbError) (db : Db) (name email hash role : String) :
    Except DbError Db :=
  match fault with
  | some err => .error err
  | none =>
    if db.users.any (fun u => u.email = email) then .error ⟨"ER_DUP_ENTRY"⟩
    else
      .ok { db with
        users := db.users ++ [⟨(db.users.map User.id).foldl max 0 + 1, name, email, hash, role⟩] }

/-- `q("SELECT * FROM users WHERE email=?", [email])`. -/
def qSelectUsers (fault : Option DbError) (db : Db) (email : String) :
    Except DbError (List User) :=
  match fault with
  | some err => .error err
  | none => .ok (db.users.filter fun u => u.email = email)

/-- `q("SELECT * FROM employees")`. -/
def qSelectEmployees (fault : Option DbError) (db : Db) : Except DbError (List Employee) :=
  match fault with
  | some err => .error err
  | none => .ok db.employees

/-- `q("INSERT INTO payroll(employee_id,month,basic,hra,da,pf,tds,net_salary) VALUES ...")`. -/
def qInsertPayroll (fault : Option DbError) (db : Db) (r : PayrollRecord) : Except DbError Db :=
  match fault with
  | some err => .error err
  | none => .ok { db with payroll := db.payroll ++ [r] }

/-! ## Responses -/

/-- The JSON bodies the modelled handlers send. -/
inductive Body where
  | message (m : String) : Body
  | session (token : String) (user : User) : Body
  deriving DecidableEq, Repr

/-- A response: `res.json(body)` has status 200. -/
structure Response where
  status : Nat
  body : Body
  deriving DecidableEq, Repr

/-- `res.json({ message: m })`. -/
def json (m : String) : Response := ⟨200, .message m⟩

/-! ## Registration and login -/

/-- The body of `POST /api/register`; `role` is `none` when the field is absent. -/
structure RegisterBody where
  name : String
  email : String
  password : String
  role : Option String
  deriving DecidableEq, Repr

/-- JavaScript `role || "employee"`. -/
def roleOrDefault : Option String → String
  | none => "employee"
  | some r => if r = "" then "employee" else r

/-- The handler of `POST /api/register`.  `hashSync` is `bcrypt.hashSync`. -/
def register (hashSync : String → Nat → String) (fault : Option DbError) (db : Db)
    (body : RegisterBody) : Db × Response :=
  let hash := hashSync body.password 10
  match qInsertUser fault db body.name body.email hash (roleOrDefault body.role) with
  | .ok db1 => (db1, json "Registered Successfully")
  | .error err =>
    if err.code = "ER_DUP_ENTRY" then (db, json "Email already exists")
    else (db, json "Registration Failed")

/-- The claims `login` puts into a token. -/
structure Payload where
  id : Nat
  name : String
  role : String
  deriving DecidableEq, Repr

/-- What `jwt.verify` returns for a token of this server: the payload together
with the issue and expiry times (seconds) that `jwt.sign` added. -/
structure Decoded where
  id : Nat
  name : String
  role : String
  iat : Nat
  exp : Nat
  deriving DecidableEq, Repr

/-- The two entry points of `jsonwebtoken` used by the program.
`sign payload key expiresIn now` is `jwt.sign(payload, key, { expiresIn })` called
at time `now`; `verify token key now` is `jwt.verify(token, key)` called at time
`now`, `none` when it throws. -/
structure Jwt where
  sign : Payload → String → String → Nat → String
  verify : String → String → Nat → Option Decoded

/-- What the login handler did: its response and the arguments of its calls of
`jwt.sign`. -/
structure LoginResult where
  response : Response
  signed : List (Payload × String × String)
  deriving DecidableEq, Repr

/-- The handler of `POST /api/login`.  `compareSync` is `bcrypt.compareSync`. -/
def login (compareSync : String → String → Bool) (jwt : Jwt) (now : Nat)
    (fault : Option DbError) (db : Db) (email password : String) : LoginResult :=
  match qSelectUsers fault db email with
  | .error _ => ⟨json "Login Failed", []⟩
  | .ok [] => ⟨json "User not found", []⟩
  | .ok (user :: _) =>
    if compareSync password user.password then
      let payload : Payload := ⟨user.id, user.name, user.role⟩
      ⟨⟨200, .session (jwt.sign payload SECRET "10h" now) user⟩, [(payload, SECRET, "10h")]⟩
    else ⟨json "Wrong Password", []⟩

/-! ## Payroll run -/

/-- The body of the `for` loop up to the insert: the record computed for one
employee. -/
def payrollRecord (month : String) (e : Employee) : PayrollRecord :=
  let basic := e.basic_salary
  let hra := F64.mul basic (F64.ofDecimal 15 100)
  let da := F64.mul basic (F64.ofDecimal 5 100)
  let pf := F64.mul basic (F64.ofDecimal 10 100)
  let tds := F64.mul basic (F64.ofDecimal 3 100)
  let net := F64.sub (F64.sub (F64.add (F64.add basic hra) da) pf) tds
  ⟨e.id, month, basic, hra, da, pf, tds, net⟩

/-- The `for (let e of employees)` loop.  `faults i` is the error injected into
the `i`-th call of `q` of the run; `i` counts from the insert about to be made.
The loop stops at the first failing insert and returns that error. -/
def payrollLoop (faults : Nat → Option DbError) (month : String) :
    List Employee → Nat → Db → Db × Option DbError
  | [], _, db => (db, none)
  | e :: es, i, db =>
    match qInsertPayroll (faults i) db (payrollRecord month e) with
    | .error err => (db, some err)
    | .ok db1 => payrollLoop faults month es (i + 1) db1

/-- What a payroll run did: the database it leaves, the response it sent (if
any) and the error its promise was rejected with (if any). -/
structure PayrollRun where
  db : Db
  response : Option Response
  rejection : Option DbError
  deriving DecidableEq, Repr

/-- The handler of `POST /api/payroll`.  Call number 0 of `q` is the employee
read, call number `k` the insert for the `k`-th employee; `iso` is
`new Date().toISOString()` at the moment the run executes.  The handler has no
`try`: an error of `q` leaves it as the rejection of its promise. -/
def payroll (faults : Nat → Option DbError) (iso : String) (db : Db) : PayrollRun :=
  match qSelectEmployees (faults 0) db with
  | .error err => ⟨db, none, some err⟩
  | .ok employees =>
    let month := slice iso 0 7
    match payrollLoop faults month employees 1 db with
    | (db1, some err) => ⟨db1, none, some err⟩
    | (db1, none) => ⟨db1, some (json ("Payroll Generated for " ++ month)), none⟩

/-! ## Sample data -/

/-- A `jwt.verify` for which every token is invalid. -/
def verifyNothing : String → String → Option Decoded := fun _ _ => none

/-- A `jwt.verify` that accepts the single token `abc`. -/
def verifyAbc : String → String → Option Decoded :=
  fun tok _ => if tok = "abc" then some ⟨7, "Asha", "employee", 0, 36000⟩ else none

/-- A stand-in for `bcrypt.hashSync`. -/
def sampleHash : String → Nat → String := fun pw _ => "$2a$10$" ++ pw

/-- A stand-in for `bcrypt.compareSync`, matching `sampleHash`. -/
def sampleCompare : String → String → Bool := fun pw hash => decide (hash = "$2a$10$" ++ pw)

/-- A stand-in for `jsonwebtoken`: it issues one token, for the user of
`sampleDb` at time 1000, and accepts it until its expiry. -/
def sampleJwt : Jwt where
  sign := fun _ _ _ _ => "abc"
  verify := fun tok _ t =>
    if tok = "abc" ∧ t < 37000 then some ⟨7, "Asha", "employee", 1000, 37000⟩ else none

/-- A database with one user, two employees and an empty ledger. -/
def sampleDb : Db where
  users := [⟨7, "Asha", "asha@example.com", "$2a$10$secret", "employee"⟩]
  employees := [⟨1, F64.ofNat 50000⟩, ⟨2, F64.ofNat 50001⟩]
  payroll := []

/-- An environment in which no call of `q` fails. -/
def noFault : Nat → Option DbError := fun _ => none

/-- An environment in which the second insert of a run fails. -/
def secondInsertFails : Nat → Option DbError :=
  fun i => if i = 2 then some ⟨"ER_LOCK_DEADLOCK"⟩ else none

/-- An environment in which the employee read of a run fails. -/
def readFails : Nat → Option DbError :=
  fun i => if i = 0 then some ⟨"ECONNRESET"⟩ else none

/-! ## The payroll loop -/

/-- A loop in which no insert fails appends the record of every employee. -/
theorem payrollLoop_all (faults : Nat → Option DbError) (month : String) :
    ∀ (es : List Employee) (i : Nat) (db : Db),
      (∀ j, j < es.length → faults (i + j) = none) →
      payrollLoop faults month es i db
        = ({ db with payroll := db.payroll ++ es.map (payrollRecord month) }, none) := by
  intro es
  induction es with
  | nil => intro i db _; simp [payrollLoop]
  | cons e es ih =>
    intro i db h
    have h0 : faults i = none := by simpa using h 0 (by simp)
    have ht : ∀ j, j < es.length → faults (i + 1 + j) = none := by
      intro j hj
      have := h (j + 1) (by simpa using hj)
      rwa [show i + (j + 1) = i + 1 + j by omega] at this
    simp [payrollLoop, qInsertPayroll, h0, ih (i + 1) _ ht]

/-- A loop whose insert number `n` (counting from 0) is the first to fail keeps
the records of the `n` employees before it and returns the error. -/
theorem payrollLoop_stop (faults : Nat → Option DbError) (month : String) (err : DbError) :
    ∀ (es : List Employee) (i n : Nat) (db : Db),
      n < es.length → (∀ j, j < n → faults (i + j) = none) → faults (i + n) = some err →
      payrollLoop faults month es i db
        = ({ db with payroll := db.payroll ++ (es.take n).map (payrollRecord month) },
            some err) := by
  intro es
  induction es with
  | nil => intro i n db hn; simp at hn
  | cons e es ih =>
    intro i n db hn hlt hn1
    cases n with
    | zero =>
      have h0 : faults i = some err := by simpa using hn1
      simp [payrollLoop, qInsertPayroll, h0]
    | succ n =>
      have h0 : faults i = none := by simpa using hlt 0 (by omega)
      have hn2 : n < es.length := by simpa using hn
      have ht : ∀ j, j < n → faults (i + 1 + j) = none := by
        intro j hj
        have := hlt (j + 1) (by omega)
        rwa [show i + (j + 1) = i + 1 + j by omega] at this
      have he : faults (i + 1 + n) = some err := by
        rwa [show i + (n + 1) = i + 1 + n by omega] at hn1
      simp [payrollLoop, qInsertPayroll, h0, ih (i + 1) n _ hn2 ht he]

/-- Whatever the environment does, the loop leaves the other tables alone and
appends the records of an initial segment of the employees, in order. -/
theorem payrollLoop_initial (faults : Nat → Option DbError) (month : String) :
    ∀ (es : List Employee) (i : Nat) (db : Db),
      ∃ n, n ≤ es.length ∧
        (payrollLoop faults month es i db).1
          = { db with payroll := db.payroll ++ (es.take n).map (payrollRecord month) } := by
  intro es
  induction es with
  | nil => intro i db; exact ⟨0, by simp, by simp [payrollLoop]⟩
  | cons e es ih =>
    intro i db
    cases hf : faults i with
    | some err => exact ⟨0, by simp, by simp [payrollLoop, qInsertPayroll, hf]⟩
    | none =>
      obtain ⟨n, hn, hdb⟩ := ih (i + 1) { db with payroll := db.payroll ++ [payrollRecord month e] }
      refine ⟨n + 1, by simpa using hn, ?_⟩
      simp [payrollLoop, qInsertPayroll, hf, hdb]

/-- A run in which neither the read nor any insert fails. -/
theorem payroll_all (faults : Nat → Option DbError) (iso : String) (db : Db)
    (h : ∀ i, i ≤ db.employees.length → faults i = none) :
    payroll faults iso db
      = ⟨{ db with
            payroll := db.payroll ++ db.employees.map (payrollRecord (slice iso 0 7)) },
          some (json ("Payroll Generated for " ++ slice iso 0 7)), none⟩ := by
  have h0 : faults 0 = none := h 0 (Nat.zero_le _)
  have hl : ∀ j, j < db.employees.length → faults (1 + j) = none := by
    intro j hj; exact h (1 + j) (by omega)
  simp [payroll, qSelectEmployees, h0, payrollLoop_all faults _ db.employees 1 db hl]

/-! ## Binary64: familiar values -/

/-- Well-known results of JavaScript arithmetic, computed by the model:
`0.1 + 0.2` is `0.30000000000000004` and not `0.3`; `3 * 0.15` is
`0.44999999999999996` and not `0.45`; `0.5 + 0.25` is exactly `0.75`;
`Number.MAX_VALUE * 2` is `Infinity`; `Number.MIN_VALUE / 2`, written
`Number.MIN_VALUE * 0.5`, is `0`; `Infinity - Infinity` and `0 * Infinity` are
`NaN`; `1 - 1` is `+0` and `-1 * 0` is `-0`. -/
theorem F64.familiar_values :
    F64.add (F64.ofDecimal 1 10) (F64.ofDecimal 2 10) = .fin false 5404319552844596 (-54) ∧
    F64.ofDecimal 3 10 = .fin false 5404319552844595 (-54) ∧
    F64.mul (F64.ofNat 3) (F64.ofDecimal 15 100) = .fin false 8106479329266892 (-54) ∧
    F64.ofDecimal 45 100 = .fin false 8106479329266893 (-54) ∧
    F64.add (F64.ofDecimal 5 10) (F64.ofDecimal 25 100) = F64.ofDecimal 75 100 ∧
    F64.mul (.fin false (2 ^ 53 - 1) 971) (F64.ofNat 2) = .inf false ∧
    F64.mul (.fin false 1 (-1074)) (F64.ofDecimal 5 10) = .fin false 0 (-1074) ∧
    F64.sub (.inf false) (.inf false) = .nan ∧
    F64.mul (F64.ofNat 0) (.inf false) = .nan ∧
    F64.sub (F64.ofNat 1) (F64.ofNat 1) = .fin false 0 (-1074) ∧
    F64.mul (F64.neg (F64.ofNat 1)) (F64.ofNat 0) = .fin true 0 (-1074) := by
  decide!

/-! ## The payroll record (C1) -/

/-- The record computed for basic salary 50000. -/
theorem payrollRecord_50000 (month : String) (id : Nat) :
    payrollRecord month ⟨id, F64.ofNat 50000⟩
      = ⟨id, month, .fin false 6871947673600000 (-37), .fin false 8246337208320000 (-40),
          .fin false 5497558138880000 (-41), .fin false 5497558138880000 (-40),
          .fin false 6597069766656000 (-42), .fin false 7352984010752000 (-37)⟩ := by
  have h1 : F64.ofNat 50000 = .fin false 6871947673600000 (-37) := by decide!
  have h2 : F64.mul (.fin false 6871947673600000 (-37)) (F64.ofDecimal 15 100)
      = .fin false 8246337208320000 (-40) := by decide!
  have h3 : F64.mul (.fin false 6871947673600000 (-37)) (F64.ofDecimal 5 100)
      = .fin false 5497558138880000 (-41) := by decide!
  have h4 : F64.mul (.fin false 6871947673600000 (-37)) (F64.ofDecimal 10 100)
      = .fin false 5497558138880000 (-40) := by decide!
  have h5 : F64.mul (.fin false 6871947673600000 (-37)) (F64.ofDecimal 3 100)
      = .fin false 6597069766656000 (-42) := by decide!
  have h6 : F64.sub (F64.sub (F64.add (F64.add (.fin false 6871947673600000 (-37))
      (.fin false 8246337208320000 (-40))) (.fin false 5497558138880000 (-41)))
      (.fin false 5497558138880000 (-40))) (.fin false 6597069766656000 (-42))
      = .fin false 7352984010752000 (-37) := by decide!
  simp only [payrollRecord, h1, h2, h3, h4, h5, h6]

/-- The record computed for basic salary 50001. -/
theorem payrollRecord_50001 (month : String) (id : Nat) :
    payrollRecord month ⟨id, F64.ofNat 50001⟩
      = ⟨id, month, .fin false 6872085112553472 (-37), .fin false 8246502135064166 (-40),
          .fin false 5497668090042778 (-41), .fin false 5497668090042778 (-40),
          .fin false 6597201708051333 (-42), .fin false 7353131070432216 (-37)⟩ := by
  have h1 : F64.ofNat 50001 = .fin false 6872085112553472 (-37) := by decide!
  have h2 : F64.mul (.fin false 6872085112553472 (-37)) (F64.ofDecimal 15 100)
      = .fin false 8246502135064166 (-40) := by decide!
  have h3 : F64.mul (.fin false 6872085112553472 (-37)) (F64.ofDecimal 5 100)
      = .fin false 5497668090042778 (-41) := by decide!
  have h4 : F64.mul (.fin false 6872085112553472 (-37)) (F64.ofDecimal 10 100)
      = .fin false 5497668090042778 (-40) := by decide!
  have h5 : F64.mul (.fin false 6872085112553472 (-37)) (F64.ofDecimal 3 100)
      = .fin false 6597201708051333 (-42) := by decide!
  have h6 : F64.sub (F64.sub (F64.add (F64.add (.fin false 6872085112553472 (-37))
      (.fin false 8246502135064166 (-40))) (.fin false 5497668090042778 (-41)))
      (.fin false 5497668090042778 (-40))) (.fin false 6597201708051333 (-42))
      = .fin false 7353131070432216 (-37) := by decide!
  simp only [payrollRecord, h1, h2, h3, h4, h5, h6]

/-- C1, as stated, fails: for basic salary 50001 the run writes a record whose
fields are not the exact products and whose net salary is neither the exact
`53501.07`, nor the binary64 number nearest to it, nor the exact sum
`basic + hra + da - pf - tds` of the written fields (the number written prints
as `53501.07000000001`). -/
theorem payroll_record_not_exact :
    (payroll (fun _ => none) "2025-03-14T10:22:33.123Z"
        ⟨[], [⟨1, F64.ofNat 50001⟩], []⟩).db.payroll
      = [payrollRecord "2025-03" ⟨1, F64.ofNat 50001⟩] ∧
    (payrollRecord "2025-03" ⟨1, F64.ofNat 50001⟩).basic.toRat = some 50001 ∧
    (payrollRecord "2025-03" ⟨1, F64.ofNat 50001⟩).hra.toRat ≠ some (50001 * (15 / 100)) ∧
    (payrollRecord "2025-03" ⟨1, F64.ofNat 50001⟩).da.toRat ≠ some (50001 * (5 / 100)) ∧
    (payrollRecord "2025-03" ⟨1, F64.ofNat 50001⟩).pf.toRat ≠ some (50001 * (10 / 100)) ∧
    (payrollRecord "2025-03" ⟨1, F64.ofNat 50001⟩).tds.toRat ≠ some (50001 * (3 / 100)) ∧
    (payrollRecord "2025-03" ⟨1, F64.ofNat 50001⟩).net_salary.toRat ≠ some (5350107 / 100) ∧
    (payrollRecord "2025-03" ⟨1, F64.ofNat 50001⟩).net_salary ≠ F64.ofDecimal 5350107 100 ∧
    ∀ b h d p t n : ℚ,
      (payrollRecord "2025-03" ⟨1, F64.ofNat 50001⟩).basic.toRat = some b →
      (payrollRecord "2025-03" ⟨1, F64.ofNat 50001⟩).hra.toRat = some h →
      (payrollRecord "2025-03" ⟨1, F64.ofNat 50001⟩).da.toRat = some d →
      (payrollRecord "2025-03" ⟨1, F64.ofNat 50001⟩).pf.toRat = some p →
      (payrollRecord "2025-03" ⟨1, F64.ofNat 50001⟩).tds.toRat = some t →
      (payrollRecord "2025-03" ⟨1, F64.ofNat 50001⟩).net_salary.toRat = some n →
      n ≠ b + h + d - p - t := by
  have hs : slice "2025-03-14T10:22:33.123Z" 0 7 = "2025-03" := by decide
  refine ⟨?_, ?_⟩
  · rw [payroll_all _ _ _ (fun _ _ => rfl), hs]
    rfl
  · have hn : F64.ofDecimal 5350107 100 = .fin false 7353131070432215 (-37) := by decide!
    rw [payrollRecord_50001, hn]
    simp only [F64.toRat]
    refine ⟨?_, ?_, ?_, ?_, ?_, ?_, ?_, ?_⟩
    · norm_num
    · norm_num
    · norm_num
    · norm_num
    · norm_num
    · norm_num
    · decide
    · intro b h d p t n hb hh hd hp ht hn
      simp only [Option.some.injEq] at hb hh hd hp ht hn
      subst hb hh hd hp ht hn
      norm_num

/-- C1, amended: every record a run writes is `payrollRecord` of an employee of
the snapshot, whose fields are the binary64 (round-to-nearest-even) results of
the operations of the source: `basic = b`, `hra = b * 0.15`, `da = b * 0.05`,
`pf = b * 0.10`, `tds = b * 0.03`, `net_salary = basic + hra + da - pf - tds`
evaluated left to right, each operation rounded.  For `b = 50000` the written
numbers are exactly 7500, 2500, 5000, 1500 and 53500.  No basic salary is
rejected: with no storage error the run writes a record for every employee,
whatever the salaries are. -/
theorem payroll_record_binary64 :
    (∀ (month : String) (e : Employee),
      (payrollRecord month e).basic = e.basic_salary ∧
      (payrollRecord month e).hra = F64.mul e.basic_salary (F64.ofDecimal 15 100) ∧
      (payrollRecord month e).da = F64.mul e.basic_salary (F64.ofDecimal 5 100) ∧
      (payrollRecord month e).pf = F64.mul e.basic_salary (F64.ofDecimal 10 100) ∧
      (payrollRecord month e).tds = F64.mul e.basic_salary (F64.ofDecimal 3 100) ∧
      (payrollRecord month e).net_salary
        = F64.sub (F64.sub (F64.add (F64.add (payrollRecord month e).basic
            (payrollRecord month e).hra) (payrollRecord month e).da)
            (payrollRecord month e).pf) (payrollRecord month e).tds) ∧
    (∀ (month : String) (id : Nat),
      (F64.ofNat 50000).toRat = some 50000 ∧
      (payrollRecord month ⟨id, F64.ofNat 50000⟩).basic.toRat = some 50000 ∧
      (payrollRecord month ⟨id, F64.ofNat 50000⟩).hra.toRat = some 7500 ∧
      (payrollRecord month ⟨id, F64.ofNat 50000⟩).da.toRat = some 2500 ∧
      (payrollRecord month ⟨id, F64.ofNat 50000⟩).pf.toRat = some 5000 ∧
      (payrollRecord month ⟨id, F64.ofNat 50000⟩).tds.toRat = some 1500 ∧
      (payrollRecord month ⟨id, F64.ofNat 50000⟩).net_salary.toRat = some 53500) ∧
    (∀ (faults : Nat → Option DbError) (iso : String) (db : Db),
      ∃ n, n ≤ db.employees.length ∧
        (payroll faults iso db).db.payroll
          = db.payroll ++ (db.employees.take n).map (payrollRecord (slice iso 0 7))) ∧
    (∀ (iso : String) (db : Db),
      (payroll (fun _ => none) iso db).db.payroll
          = db.payroll ++ db.employees.map (payrollRecord (slice iso 0 7)) ∧
      (payroll (fun _ => none) iso db).response
          = some (json ("Payroll Generated for " ++ slice iso 0 7)) ∧
      (payroll (fun _ => none) iso db).rejection = none) := by
  refine ⟨fun month e => ⟨rfl, rfl, rfl, rfl, rfl, rfl⟩, ?_, ?_, ?_⟩
  · intro month id
    have h1 : F64.ofNat 50000 = .fin false 6871947673600000 (-37) := by decide!
    rw [payrollRecord_50000, h1]
    simp only [F64.toRat]
    norm_num
  · intro faults iso db
    cases hf : faults 0 with
    | some err => exact ⟨0, Nat.zero_le _, by simp [payroll, qSelectEmployees, hf]⟩
    | none =>
      obtain ⟨n, hn, hdb⟩ := payrollLoop_initial faults (slice iso 0 7) db.employees 1 db
      refine ⟨n, hn, ?_⟩
      have : (payroll faults iso db).db
          = (payrollLoop faults (slice iso 0 7) db.employees 1 db).1 := by
        simp only [payroll, qSelectEmployees, hf]
        split <;> simp_all
      rw [this, hdb]
  · intro iso db
    rw [payroll_all _ _ _ (fun _ _ => rfl)]
    exact ⟨rfl, rfl, rfl⟩

/-! ## Payroll runs (C2, C3, C9) -/

/-- C2: a run over a snapshot of N employees in which the read and every insert
succeed appends exactly N records to the ledger, one per employee in snapshot
order, each with that employee's id and the period label, the first 7
characters of the ISO timestamp; it answers "Payroll Generated for " followed by
the label and raises no error.  With no employee it writes nothing and still
answers with the label. -/
theorem payroll_run_writes_snapshot (faults : Nat → Option DbError) (iso : String) (db : Db)
    (h : ∀ i, i ≤ db.employees.length → faults i = none) :
    slice iso 0 7 = String.mk (iso.data.take 7) ∧
    (payroll faults iso db).db.payroll
      = db.payroll ++ db.employees.map (payrollRecord (slice iso 0 7)) ∧
    (payroll faults iso db).db.payroll.length = db.payroll.length + db.employees.length ∧
    (∀ (i : Nat) (e : Employee), db.employees[i]? = some e →
      ∃ r, (payroll faults iso db).db.payroll[db.payroll.length + i]? = some r ∧
        r.employee_id = e.id ∧ r.month = slice iso 0 7) ∧
    (payroll faults iso db).response
      = some ⟨200, .message ("Payroll Generated for " ++ slice iso 0 7)⟩ ∧
    (payroll faults iso db).rejection = none ∧
    (payroll faults iso db).db.users = db.users ∧
    (payroll faults iso db).db.employees = db.employees ∧
    (db.employees = [] → (payroll faults iso db).db = db) := by
  rw [payroll_all faults iso db h]
  refine ⟨by simp [slice], rfl, by simp, ?_, rfl, rfl, rfl, rfl, ?_⟩
  · intro i e hi
    refine ⟨payrollRecord (slice iso 0 7) e, ?_, rfl, rfl⟩
    simp only []
    rw [List.getElem?_append_right (Nat.le_add_right _ _)]
    simp [hi]
  · intro hnil
    cases db
    simp_all

/-- Witness for `payroll_run_writes_snapshot`: a run over the two employees of
`sampleDb` on 14 March 2025. -/
theorem payroll_run_writes_snapshot_witness :
    (∀ i, i ≤ sampleDb.employees.length → noFault i = none) ∧
    (slice "2025-03-14T10:22:33.123Z" 0 7
        = String.mk (("2025-03-14T10:22:33.123Z" : String).data.take 7) ∧
      (payroll noFault "2025-03-14T10:22:33.123Z" sampleDb).db.payroll
        = sampleDb.payroll
          ++ sampleDb.employees.map (payrollRecord (slice "2025-03-14T10:22:33.123Z" 0 7)) ∧
      (payroll noFault "2025-03-14T10:22:33.123Z" sampleDb).db.payroll.length
        = sampleDb.payroll.length + sampleDb.employees.length ∧
      (∀ (i : Nat) (e : Employee), sampleDb.employees[i]? = some e →
        ∃ r, (payroll noFault "2025-03-14T10:22:33.123Z" sampleDb).db.payroll[
            sampleDb.payroll.length + i]? = some r ∧
          r.employee_id = e.id ∧ r.month = slice "2025-03-14T10:22:33.123Z" 0 7) ∧
      (payroll noFault "2025-03-14T10:22:33.123Z" sampleDb).response
        = some ⟨200, .message
            ("Payroll Generated for " ++ slice "2025-03-14T10:22:33.123Z" 0 7)⟩ ∧
      (payroll noFault "2025-03-14T10:22:33.123Z" sampleDb).rejection = none ∧
      (payroll noFault "2025-03-14T10:22:33.123Z" sampleDb).db.users = sampleDb.users ∧
      (payroll noFault "2025-03-14T10:22:33.123Z" sampleDb).db.employees
        = sampleDb.employees ∧
      (sampleDb.employees = [] →
        (payroll noFault "2025-03-14T10:22:33.123Z" sampleDb).db = sampleDb)) :=
  ⟨fun _ _ => rfl,
    payroll_run_writes_snapshot noFault "2025-03-14T10:22:33.123Z" sampleDb (fun _ _ => rfl)⟩

/-- C3: two runs in the same period over the same employees, neither meeting a
storage error, leave the ledger with its old records followed by the N records
of the first run and the same N records again; the second run answers with the
success message like the first, every employee has two records with the same
employee id, period and field values, and for N ≥ 1 the second run changes the
database: the run is not idempotent. -/
theorem payroll_twice_duplicates (f1 f2 : Nat → Option DbError) (iso1 iso2 : String) (db : Db)
    (h1 : ∀ i, i ≤ db.employees.length → f1 i = none)
    (h2 : ∀ i, i ≤ db.employees.length → f2 i = none)
    (hp : slice iso1 0 7 = slice iso2 0 7) :
    (payroll f1 iso1 db).db.employees = db.employees ∧
    (payroll f2 iso2 (payroll f1 iso1 db).db).db.payroll
      = db.payroll ++ db.employees.map (payrollRecord (slice iso1 0 7))
          ++ db.employees.map (payrollRecord (slice iso1 0 7)) ∧
    (payroll f2 iso2 (payroll f1 iso1 db).db).db.payroll.length
      = db.payroll.length + 2 * db.employees.length ∧
    (∀ (i : Nat) (e : Employee), db.employees[i]? = some e →
      (payroll f2 iso2 (payroll f1 iso1 db).db).db.payroll[db.payroll.length + i]?
        = some (payrollRecord (slice iso1 0 7) e) ∧
      (payroll f2 iso2 (payroll f1 iso1 db).db).db.payroll[
          db.payroll.length + db.employees.length + i]?
        = some (payrollRecord (slice iso1 0 7) e) ∧
      (payrollRecord (slice iso1 0 7) e).employee_id = e.id ∧
      (payrollRecord (slice iso1 0 7) e).month = slice iso1 0 7) ∧
    (payroll f2 iso2 (payroll f1 iso1 db).db).response
      = some (json ("Payroll Generated for " ++ slice iso1 0 7)) ∧
    (payroll f2 iso2 (payroll f1 iso1 db).db).rejection = none ∧
    (1 ≤ db.employees.length →
      (payroll f2 iso2 (payroll f1 iso1 db).db).db ≠ (payroll f1 iso1 db).db) := by
  rw [payroll_all f1 iso1 db h1]
  have e2 := payroll_all f2 iso2
    { db with payroll := db.payroll ++ db.employees.map (payrollRecord (slice iso1 0 7)) } h2
  have e1 : ∀ d : Db, (⟨d, some (json ("Payroll Generated for " ++ slice iso1 0 7)), none⟩ :
      PayrollRun).db = d := fun _ => rfl
  rw [e1, e2, ← hp]
  refine ⟨rfl, by simp, by simp; omega, ?_, rfl, rfl, ?_⟩
  · intro i e hi
    have hlt : i < db.employees.length := by
      rcases Nat.lt_or_ge i db.employees.length with h | h
      · exact h
      · rw [List.getElem?_eq_none h] at hi; cases hi
    refine ⟨?_, ?_, rfl, rfl⟩
    · simp only []
      rw [List.getElem?_append_left (by simp; omega)]
      rw [List.getElem?_append_right (Nat.le_add_right _ _)]
      simp [hi]
    · simp only []
      rw [List.getElem?_append_right (by simp)]
      simp [hi]
  · intro hN hEq
    have hlen := congrArg (fun d : Db => d.payroll.length) hEq
    simp only [List.length_append, List.length_map] at hlen
    omega

/-- Witness for `payroll_twice_duplicates`: two runs in March 2025 over
`sampleDb`. -/
theorem payroll_twice_duplicates_witness :
    ((∀ i, i ≤ sampleDb.employees.length → noFault i = none) ∧
      slice "2025-03-14T10:22:33.123Z" 0 7 = slice "2025-03-31T23:59:59.999Z" 0 7) ∧
    ((payroll noFault "2025-03-14T10:22:33.123Z" sampleDb).db.employees = sampleDb.employees ∧
      (payroll noFault "2025-03-31T23:59:59.999Z"
          (payroll noFault "2025-03-14T10:22:33.123Z" sampleDb).db).db.payroll
        = sampleDb.payroll ++ sampleDb.employees.map (payrollRecord (slice "2025-03-14T10:22:33.123Z" 0 7))
            ++ sampleDb.employees.map (payrollRecord (slice "2025-03-14T10:22:33.123Z" 0 7)) ∧
      (payroll noFault "2025-03-31T23:59:59.999Z"
          (payroll noFault "2025-03-14T10:22:33.123Z" sampleDb).db).db.payroll.length
        = sampleDb.payroll.length + 2 * sampleDb.employees.length ∧
      (∀ (i : Nat) (e : Employee), sampleDb.employees[i]? = some e →
        (payroll noFault "2025-03-31T23:59:59.999Z"
          (payroll noFault "2025-03-14T10:22:33.123Z" sampleDb).db).db.payroll[sampleDb.payroll.length + i]?
          = some (payrollRecord (slice "2025-03-14T10:22:33.123Z" 0 7) e) ∧
        (payroll noFault "2025-03-31T23:59:59.999Z"
          (payroll noFault "2025-03-14T10:22:33.123Z" sampleDb).db).db.payroll[sampleDb.payroll.length + sampleDb.employees.length + i]?
          = some (payrollRecord (slice "2025-03-14T10:22:33.123Z" 0 7) e) ∧
        (payrollRecord (slice "2025-03-14T10:22:33.123Z" 0 7) e).employee_id = e.id ∧
        (payrollRecord (slice "2025-03-14T10:22:33.123Z" 0 7) e).month = slice "2025-03-14T10:22:33.123Z" 0 7) ∧
      (payroll noFault "2025-03-31T23:59:59.999Z"
          (payroll noFault "2025-03-14T10:22:33.123Z" sampleDb).db).response
        = some (json ("Payroll Generated for " ++ slice "2025-03-14T10:22:33.123Z" 0 7)) ∧
      (payroll noFault "2025-03-31T23:59:59.999Z"
          (payroll noFault "2025-03-14T10:22:33.123Z" sampleDb).db).rejection = none ∧
      (1 ≤ sampleDb.employees.length →
        (payroll noFault "2025-03-31T23:59:59.999Z"
          (payroll noFault "2025-03-14T10:22:33.123Z" sampleDb).db).db
          ≠ (payroll noFault "2025-03-14T10:22:33.123Z" sampleDb).db)) :=
  ⟨⟨fun _ _ => rfl, by decide⟩,
    payroll_twice_duplicates noFault noFault "2025-03-14T10:22:33.123Z"
      "2025-03-31T23:59:59.999Z" sampleDb (fun _ _ => rfl) (fun _ _ => rfl) (by decide)⟩

/-- A run whose insert for the k-th employee (1 ≤ k ≤ N) is the first call to
fail keeps the records of the first k-1 employees and writes none for employees
k..N; the handler never calls `res.json` and the error leaves it uncaught, as
the rejection of its promise.  A run whose employee read fails leaves the
database as it was, with the same outcome. -/
theorem payroll_interrupted_run (faults : Nat → Option DbError) (iso : String) (db : Db)
    (err : DbError) :
    (∀ k, 1 ≤ k → k ≤ db.employees.length → (∀ j, j < k → faults j = none) →
      faults k = some err →
      (payroll faults iso db).db.payroll
        = db.payroll ++ (db.employees.take (k - 1)).map (payrollRecord (slice iso 0 7)) ∧
      (payroll faults iso db).db.payroll.length = db.payroll.length + (k - 1) ∧
      (payroll faults iso db).db.users = db.users ∧
      (payroll faults iso db).db.employees = db.employees ∧
      (payroll faults iso db).response = none ∧
      (payroll faults iso db).rejection = some err) ∧
    (faults 0 = some err →
      (payroll faults iso db).db = db ∧
      (payroll faults iso db).response = none ∧
      (payroll faults iso db).rejection = some err) := by
  constructor
  · intro k hk1 hkN hlt hk
    have h0 : faults 0 = none := hlt 0 (by omega)
    have hl : ∀ j, j < k - 1 → faults (1 + j) = none := by
      intro j hj; exact hlt (1 + j) (by omega)
    have he : faults (1 + (k - 1)) = some err := by
      rwa [show 1 + (k - 1) = k by omega]
    have hloop := payrollLoop_stop faults (slice iso 0 7) err db.employees 1 (k - 1) db
      (by omega) hl he
    have hrun : payroll faults iso db
        = ⟨{ db with payroll := db.payroll
              ++ (db.employees.take (k - 1)).map (payrollRecord (slice iso 0 7)) },
            none, some err⟩ := by
      simp only [payroll, qSelectEmployees, h0, hloop]
    rw [hrun]
    refine ⟨rfl, ?_, rfl, rfl, rfl, rfl⟩
    simp only [List.length_append, List.length_map, List.length_take]
    omega
  · intro h0
    simp [payroll, qSelectEmployees, h0]

/-- C9: the handler run on a failing insert.  Over the two employees of
`sampleDb`, with the insert for the second employee failing, the record of the
first employee stays in the ledger and none is written for the second, and the
success message is not sent; but the handler sends no response of any kind: it
has no `try`/`catch`, so the driver error is only the rejection of the
handler's promise, and nothing in the program reports it to the caller.  The
same holds when the employee read fails, before any write. -/
theorem payroll_failure_unreported :
    (payroll secondInsertFails "2025-03-14T10:22:33.123Z" sampleDb).db.payroll
      = [payrollRecord "2025-03" ⟨1, F64.ofNat 50000⟩] ∧
    (payroll secondInsertFails "2025-03-14T10:22:33.123Z" sampleDb).response = none ∧
    (payroll secondInsertFails "2025-03-14T10:22:33.123Z" sampleDb).rejection
      = some ⟨"ER_LOCK_DEADLOCK"⟩ ∧
    (payroll readFails "2025-03-14T10:22:33.123Z" sampleDb).db = sampleDb ∧
    (payroll readFails "2025-03-14T10:22:33.123Z" sampleDb).response = none ∧
    (payroll readFails "2025-03-14T10:22:33.123Z" sampleDb).rejection
      = some ⟨"ECONNRESET"⟩ := by
  have hs : slice "2025-03-14T10:22:33.123Z" 0 7 = "2025-03" := by decide
  have h := (payroll_interrupted_run secondInsertFails "2025-03-14T10:22:33.123Z" sampleDb
    ⟨"ER_LOCK_DEADLOCK"⟩).1 2 (by decide) (by decide) (by decide) (by decide)
  have hr := (payroll_interrupted_run readFails "2025-03-14T10:22:33.123Z" sampleDb
    ⟨"ECONNRESET"⟩).2 (by decide)
  refine ⟨?_, h.2.2.2.2.1, h.2.2.2.2.2, hr.1, hr.2.1, hr.2.2⟩
  rw [h.1, hs]
  rfl

/-! ## Splitting at spaces -/

/-- Splitting never yields an empty list of pieces. -/
theorem splitChars_ne_nil (l : List Char) : splitChars l ≠ [] := by
  cases l with
  | nil => simp [splitChars]
  | cons c cs =>
    simp only [splitChars]
    split
    · simp
    · split <;> simp

/-- A sequence without a space is its own single piece. -/
theorem splitChars_no_space : ∀ l : List Char, ' ' ∉ l → splitChars l = [l] := by
  intro l
  induction l with
  | nil => intro _; rfl
  | cons c cs ih =>
    intro h
    have hc : c ≠ ' ' := fun e => h (by simp [e])
    have hcs : ' ' ∉ cs := fun e => h (by simp [e])
    simp [splitChars, hc, ih hcs]

/-- The first piece of `s ++ " " ++ r`, for `s` without a space, is `s`; the
other pieces are those of `r`. -/
theorem splitChars_append_space : ∀ (s r : List Char), ' ' ∉ s →
    splitChars (s ++ ' ' :: r) = s :: splitChars r := by
  intro s
  induction s with
  | nil => intro r _; simp [splitChars]
  | cons c cs ih =>
    intro r h
    have hc : c ≠ ' ' := fun e => h (by simp [e])
    have hcs : ' ' ∉ cs := fun e => h (by simp [e])
    simp [splitChars, hc, ih r hcs]

/-- No piece contains a space. -/
theorem splitChars_pieces : ∀ (l seg : List Char), seg ∈ splitChars l → ' ' ∉ seg := by
  intro l
  induction l with
  | nil => intro seg h; simp [splitChars] at h; simp [h]
  | cons c cs ih =>
    intro seg h
    by_cases hc : c = ' '
    · simp only [splitChars, hc, if_true, List.mem_cons] at h
      rcases h with h | h
      · simp [h]
      · exact ih seg h
    · simp only [splitChars, hc, if_false] at h
      cases hsp : splitChars cs with
      | nil => exact absurd hsp (splitChars_ne_nil cs)
      | cons s0 ss =>
        rw [hsp] at h
        simp only [List.mem_cons] at h
        rcases h with h | h
        · subst h
          have h0 := ih s0 (by simp [hsp])
          intro hmem
          simp only [List.mem_cons] at hmem
          rcases hmem with hmem | hmem
          · exact hc hmem.symm
          · exact h0 hmem
        · exact ih seg (by simp [hsp, h])

/-- Joining the pieces with single spaces gives the sequence back. -/
theorem splitChars_join : ∀ l : List Char, [' '].intercalate (splitChars l) = l := by
  intro l
  induction l with
  | nil => rfl
  | cons c cs ih =>
    cases hsp : splitChars cs with
    | nil => exact absurd hsp (splitChars_ne_nil cs)
    | cons s0 ss =>
      rw [hsp] at ih
      by_cases hc : c = ' '
      · simp only [splitChars, hc, if_true, hsp]
        simp only [List.intercalate, List.intersperse, List.flatten] at ih ⊢
        rw [← ih]
        rfl
      · simp only [splitChars, hc, if_false, hsp]
        cases ss with
        | nil =>
          simp only [List.intercalate, List.intersperse, List.flatten] at ih ⊢
          rw [← ih]
          rfl
        | cons s1 ss =>
          simp only [List.intercalate, List.intersperse, List.flatten] at ih ⊢
          rw [← ih]
          rfl

/-- The token the gate extracts from `s ++ " " ++ t` is `t`, whatever the word
`s` is, as long as neither contains a space. -/
theorem bearer_scheme (s t : String) (hs : ' ' ∉ s.data) (ht : ' ' ∉ t.data) :
    bearer ⟨some (s ++ " " ++ t)⟩ = some t := by
  have hd : (s ++ " " ++ t).data = s.data ++ ' ' :: t.data := by
    simp [String.data_append]
  simp [bearer, split, hd, splitChars_append_space _ _ hs, splitChars_no_space _ ht]

/-- A header value without a space has no second piece. -/
theorem split_single (v : String) (hv : ' ' ∉ v.data) : (split v)[1]? = none := by
  simp [split, splitChars_no_space _ hv]

/-- A header value that ends right after its first space has an empty second
piece. -/
theorem split_trailing_space (s : String) (hs : ' ' ∉ s.data) :
    (split (s ++ " "))[1]? = some "" := by
  have hd : (s ++ " ").data = s.data ++ ' ' :: [] := by simp [String.data_append]
  simp only [split, hd, splitChars_append_space _ _ hs]
  rfl

/-- The token the gate extracts from `"Bearer " ++ t` is `t`. -/
theorem bearer_Bearer (t : String) (ht : ' ' ∉ t.data) :
    bearer ⟨some ("Bearer " ++ t)⟩ = some t := by
  have hb : ("Bearer " : String) = "Bearer" ++ " " := by decide
  rw [hb]
  exact bearer_scheme "Bearer" t (by decide) ht

/-! ## The access gate (C4, C5, C10) -/

/-- C4: a request without an Authorization header, or whose header value has no
second space-separated piece or an empty one, is answered 401 "No Token Found";
`jwt.verify` is not called, `next` is not called and `req.user` is not set.  The
answer for a token that fails verification is also 401 but carries the different
message "Invalid Token". -/
theorem auth_no_token {κ : Type} (verify : String → String → Option κ) (req : Request)
    (h : req.authorization = none ∨
      ∃ v, req.authorization = some v ∧ ((split v)[1]? = none ∨ (split v)[1]? = some "")) :
    auth verify req = ⟨some 401, some "No Token Found", none, 0, []⟩ ∧
    ∀ (req2 : Request) (t : String), bearer req2 = some t → t ≠ "" →
      verify t SECRET = none →
      (auth verify req2).status = some 401 ∧
      (auth verify req2).message = some "Invalid Token" ∧
      (auth verify req2).message ≠ (auth verify req).message := by
  have hreq : auth verify req = ⟨some 401, some "No Token Found", none, 0, []⟩ := by
    rcases h with h | ⟨v, hv, h | h⟩
    · simp [auth, bearer, h]
    · simp [auth, bearer, hv, h]
    · simp [auth, bearer, hv, h]
  refine ⟨hreq, ?_⟩
  intro req2 t ht hne hv
  have h2 : auth verify req2 = ⟨some 401, some "Invalid Token", none, 0, [t]⟩ := by
    simp [auth, ht, hne, hv]
  rw [h2, hreq]
  exact ⟨rfl, rfl, by simp⟩

/-- Witness for `auth_no_token`: the header `Bearer  abc`, with two spaces. -/
theorem auth_no_token_witness :
    ((⟨some "Bearer  abc"⟩ : Request).authorization = none ∨
      ∃ v, (⟨some "Bearer  abc"⟩ : Request).authorization = some v ∧
        ((split v)[1]? = none ∨ (split v)[1]? = some "")) ∧
    (auth verifyNothing ⟨some "Bearer  abc"⟩
        = ⟨some 401, some "No Token Found", none, 0, []⟩ ∧
      ∀ (req2 : Request) (t : String), bearer req2 = some t → t ≠ "" →
        verifyNothing t SECRET = none →
        (auth verifyNothing req2).status = some 401 ∧
        (auth verifyNothing req2).message = some "Invalid Token" ∧
        (auth verifyNothing req2).message
          ≠ (auth verifyNothing ⟨some "Bearer  abc"⟩).message) :=
  ⟨Or.inr ⟨"Bearer  abc", rfl, Or.inr (by decide)⟩,
    auth_no_token verifyNothing ⟨some "Bearer  abc"⟩
      (Or.inr ⟨"Bearer  abc", rfl, Or.inr (by decide)⟩)⟩

/-- C5: for a request carrying a token, the gate hands exactly that token to
`jwt.verify`; it calls `next` (once) if and only if verification succeeds, and
then `req.user` is what `jwt.verify` returned, whatever role it names; if
verification fails the gate answers 401 "Invalid Token", does not call `next` and
sets no identity. -/
theorem auth_token {κ : Type} (verify : String → String → Option κ) (req : Request)
    (t : String) (ht : bearer req = some t) (hne : t ≠ "") :
    ((auth verify req).nextCalls = 1 ↔ ∃ c, verify t SECRET = some c) ∧
    (auth verify req).nextCalls ≤ 1 ∧
    (auth verify req).verified = [t] ∧
    (∀ c, verify t SECRET = some c → auth verify req = ⟨none, none, some c, 1, [t]⟩) ∧
    (verify t SECRET = none →
      auth verify req = ⟨some 401, some "Invalid Token", none, 0, [t]⟩) := by
  cases hv : verify t SECRET with
  | none =>
    have h2 : auth verify req = ⟨some 401, some "Invalid Token", none, 0, [t]⟩ := by
      simp [auth, ht, hne, hv]
    rw [h2]
    simp
  | some c =>
    have h2 : auth verify req = ⟨none, none, some c, 1, [t]⟩ := by
      simp [auth, ht, hne, hv]
    rw [h2]
    simp

/-- Witness for `auth_token`: a codec that accepts only the token `abc`. -/
theorem auth_token_witness :
    (bearer ⟨some "Bearer abc"⟩ = some "abc" ∧ "abc" ≠ "") ∧
    (((auth verifyAbc ⟨some "Bearer abc"⟩).nextCalls = 1 ↔
        ∃ c, verifyAbc "abc" SECRET = some c) ∧
      (auth verifyAbc ⟨some "Bearer abc"⟩).nextCalls ≤ 1 ∧
      (auth verifyAbc ⟨some "Bearer abc"⟩).verified = ["abc"] ∧
      (∀ c, verifyAbc "abc" SECRET = some c →
        auth verifyAbc ⟨some "Bearer abc"⟩ = ⟨none, none, some c, 1, ["abc"]⟩) ∧
      (verifyAbc "abc" SECRET = none →
        auth verifyAbc ⟨some "Bearer abc"⟩
          = ⟨some 401, some "Invalid Token", none, 0, ["abc"]⟩)) :=
  ⟨⟨by decide, by decide⟩,
    auth_token verifyAbc ⟨some "Bearer abc"⟩ "abc" (by decide) (by decide)⟩

/-- C10: the gate does not look at the first word of the header.  For words `s`
and `t` without a space, the header `s ++ " " ++ t` is treated exactly like
`"Bearer " ++ t`: same status, message, identity, calls of `next` and of
`jwt.verify`.  So a header with another scheme word is admitted whenever its
second piece is a token that verifies. -/
theorem auth_ignores_scheme {κ : Type} (verify : String → String → Option κ) (s t : String)
    (hs : ' ' ∉ s.data) (ht : ' ' ∉ t.data) :
    auth verify ⟨some (s ++ " " ++ t)⟩ = auth verify ⟨some ("Bearer " ++ t)⟩ ∧
    ∀ c, t ≠ "" → verify t SECRET = some c →
      auth verify ⟨some (s ++ " " ++ t)⟩ = ⟨none, none, some c, 1, [t]⟩ := by
  have h1 : bearer ⟨some (s ++ " " ++ t)⟩ = some t := bearer_scheme s t hs ht
  have h2 : bearer ⟨some ("Bearer " ++ t)⟩ = some t := bearer_Bearer t ht
  constructor
  · simp only [auth, h1, h2]
  · intro c hne hv
    simp [auth, h1, hne, hv]

/-- Witness for `auth_ignores_scheme`: the header `Basic abc`. -/
theorem auth_ignores_scheme_witness :
    (' ' ∉ ("Basic" : String).data ∧ ' ' ∉ ("abc" : String).data) ∧
    (auth verifyAbc ⟨some ("Basic" ++ " " ++ "abc")⟩
      = auth verifyAbc ⟨some ("Bearer " ++ "abc")⟩ ∧
      ∀ c, "abc" ≠ "" →
        verifyAbc "abc" SECRET = some c →
        auth verifyAbc ⟨some ("Basic" ++ " " ++ "abc")⟩ = ⟨none, none, some c, 1, ["abc"]⟩) :=
  ⟨⟨by decide, by decide⟩,
    auth_ignores_scheme verifyAbc "Basic" "abc"
      (by decide) (by decide)⟩

/-! ## Login and registration (C6, C7, C8) -/

/-- The first row of the filtered table is the first row that passes. -/
theorem filter_of_find {α : Type} (p : α → Bool) :
    ∀ (l : List α) (a : α), l.find? p = some a → ∃ rest, l.filter p = a :: rest := by
  intro l
  induction l with
  | nil => intro a h; simp at h
  | cons x xs ih =>
    intro a h
    by_cases hx : p x = true
    · simp only [List.find?, hx, Option.some.injEq] at h
      subst h
      exact ⟨xs.filter p, by simp [List.filter, hx]⟩
    · have hx2 : p x = false := by simpa using hx
      simp only [List.find?, hx2] at h
      obtain ⟨rest, hr⟩ := ih a h
      exact ⟨rest, by simp [List.filter, hx2, hr]⟩

/-- C6: with the user table readable, login for an email no stored user has
answers "User not found"; login for an email whose (first) stored user has a
hash the password does not match answers "Wrong Password".  In both cases the
response carries no token and `jwt.sign` is not called. -/
theorem login_rejects (compareSync : String → String → Bool) (jwt : Jwt) (now : Nat)
    (db : Db) (email password : String) :
    ((∀ u ∈ db.users, u.email ≠ email) →
      login compareSync jwt now none db email password = ⟨json "User not found", []⟩) ∧
    (∀ u, db.users.find? (fun u => decide (u.email = email)) = some u →
      compareSync password u.password = false →
      login compareSync jwt now none db email password = ⟨json "Wrong Password", []⟩) := by
  constructor
  · intro h
    have hf : db.users.filter (fun u => decide (u.email = email)) = [] := by
      rw [List.filter_eq_nil_iff]
      intro u hu
      simpa using h u hu
    simp [login, qSelectUsers, hf]
  · intro u hu hpw
    obtain ⟨rest, hf⟩ := filter_of_find _ _ _ hu
    simp [login, qSelectUsers, hf, hpw]

/-- Witness for `login_rejects`: an unknown email and a wrong password. -/
theorem login_rejects_witness :
    ((∀ u ∈ sampleDb.users, u.email ≠ "nobody@example.com") ∧
      login sampleCompare sampleJwt 1000 none sampleDb "nobody@example.com" "secret"
        = ⟨json "User not found", []⟩) ∧
    (sampleDb.users.find? (fun u => decide (u.email = "asha@example.com"))
        = some ⟨7, "Asha", "asha@example.com", "$2a$10$secret", "employee"⟩ ∧
      sampleCompare "guess" "$2a$10$secret" = false ∧
      login sampleCompare sampleJwt 1000 none sampleDb "asha@example.com" "guess"
        = ⟨json "Wrong Password", []⟩) :=
  ⟨⟨by decide,
      (login_rejects sampleCompare sampleJwt 1000 sampleDb "nobody@example.com" "secret").1
        (by decide)⟩,
    ⟨by decide, by decide,
      (login_rejects sampleCompare sampleJwt 1000 sampleDb "asha@example.com" "guess").2
        ⟨7, "Asha", "asha@example.com", "$2a$10$secret", "employee"⟩ (by decide) (by decide)⟩⟩

/-- C7: for a stored user and a password that matches its hash, login calls
`jwt.sign` once, with the payload made of exactly the user's id, name and role,
the key `SECRET` and `expiresIn: "10h"`, and answers with that token.  Given that
the library keeps its contract for this call (a token signed at `now` with
`"10h"` decodes, at any time before `now + 36000` seconds, to the payload with
`iat = now` and `exp = now + 36000`), verifying the returned token before expiry
yields the user's id, name and role, and an expiry 10 hours after issuance; and
the gate, given the header `Bearer <token>` before expiry, stores that identity
in `req.user` and calls `next` (a token has no space and is not empty). -/
theorem login_issues_token (compareSync : String → String → Bool) (jwt : Jwt) (now : Nat)
    (db : Db) (email password : String) (u : User)
    (hu : db.users.find? (fun u => decide (u.email = email)) = some u)
    (hpw : compareSync password u.password = true)
    (hcodec : ∀ t, t < now + 36000 →
      jwt.verify (jwt.sign ⟨u.id, u.name, u.role⟩ SECRET "10h" now) SECRET t
        = some ⟨u.id, u.name, u.role, now, now + 36000⟩) :
    login compareSync jwt now none db email password
      = ⟨⟨200, .session (jwt.sign ⟨u.id, u.name, u.role⟩ SECRET "10h" now) u⟩,
          [(⟨u.id, u.name, u.role⟩, SECRET, "10h")]⟩ ∧
    ∀ t, t < now + 36000 →
      ∃ d, jwt.verify (jwt.sign ⟨u.id, u.name, u.role⟩ SECRET "10h" now) SECRET t = some d ∧
        d.id = u.id ∧ d.name = u.name ∧ d.role = u.role ∧ d.iat = now ∧
        d.exp = d.iat + 36000 ∧
        (' ' ∉ (jwt.sign ⟨u.id, u.name, u.role⟩ SECRET "10h" now).data →
          jwt.sign ⟨u.id, u.name, u.role⟩ SECRET "10h" now ≠ "" →
          auth (fun tok key => jwt.verify tok key t)
              ⟨some ("Bearer " ++ jwt.sign ⟨u.id, u.name, u.role⟩ SECRET "10h" now)⟩
            = ⟨none, none, some d, 1, [jwt.sign ⟨u.id, u.name, u.role⟩ SECRET "10h" now]⟩) := by
  obtain ⟨rest, hf⟩ := filter_of_find _ _ _ hu
  refine ⟨by simp [login, qSelectUsers, hf, hpw], ?_⟩
  intro t ht
  refine ⟨_, hcodec t ht, rfl, rfl, rfl, rfl, rfl, ?_⟩
  intro hsp hne
  simp [auth, bearer_Bearer _ hsp, hne, hcodec t ht]

/-- Witness for `login_issues_token`: the user of `sampleDb` logs in at time 1000. -/
theorem login_issues_token_witness :
    (sampleDb.users.find? (fun u => decide (u.email = "asha@example.com"))
        = some ⟨7, "Asha", "asha@example.com", "$2a$10$secret", "employee"⟩ ∧
      sampleCompare "secret" "$2a$10$secret" = true ∧
      ∀ t, t < 1000 + 36000 →
        sampleJwt.verify (sampleJwt.sign ⟨7, "Asha", "employee"⟩ SECRET "10h" 1000) SECRET t
          = some ⟨7, "Asha", "employee", 1000, 1000 + 36000⟩) ∧
    (login sampleCompare sampleJwt 1000 none sampleDb "asha@example.com" "secret"
        = ⟨⟨200, .session (sampleJwt.sign ⟨7, "Asha", "employee"⟩ SECRET "10h" 1000)
              ⟨7, "Asha", "asha@example.com", "$2a$10$secret", "employee"⟩⟩,
            [(⟨7, "Asha", "employee"⟩, SECRET, "10h")]⟩ ∧
      ∀ t, t < 1000 + 36000 →
        ∃ d, sampleJwt.verify (sampleJwt.sign ⟨7, "Asha", "employee"⟩ SECRET "10h" 1000)
            SECRET t = some d ∧
          d.id = 7 ∧ d.name = "Asha" ∧ d.role = "employee" ∧ d.iat = 1000 ∧
          d.exp = d.iat + 36000 ∧
          (' ' ∉ (sampleJwt.sign ⟨7, "Asha", "employee"⟩ SECRET "10h" 1000).data →
            sampleJwt.sign ⟨7, "Asha", "employee"⟩ SECRET "10h" 1000 ≠ "" →
            auth (fun tok key => sampleJwt.verify tok key t)
                ⟨some ("Bearer " ++ sampleJwt.sign ⟨7, "Asha", "employee"⟩ SECRET "10h" 1000)⟩
              = ⟨none, none, some d, 1,
                  [sampleJwt.sign ⟨7, "Asha", "employee"⟩ SECRET "10h" 1000]⟩)) :=
  ⟨⟨by decide, by decide, fun t ht => by simp [sampleJwt, ht]⟩,
    login_issues_token sampleCompare sampleJwt 1000 sampleDb "asha@example.com" "secret"
      ⟨7, "Asha", "asha@example.com", "$2a$10$secret", "employee"⟩ (by decide) (by decide)
      (fun t ht => by simp [sampleJwt, ht])⟩

/-- C8: after a registration that succeeded, a second registration with the same
email (the store being reachable) is answered "Email already exists", which is
neither the success answer nor "Registration Failed", and leaves the database
exactly as the first registration left it: the first user's record, with its
name, password hash and role, is still there and no user was added. -/
theorem register_twice (hashSync : String → Nat → String) (fault : Option DbError) (db : Db)
    (b1 b2 : RegisterBody) (he : b2.email = b1.email)
    (h1 : (register hashSync fault db b1).2 = json "Registered Successfully") :
    register hashSync none (register hashSync fault db b1).1 b2
      = ((register hashSync fault db b1).1, json "Email already exists") ∧
    json "Email already exists" ≠ json "Registered Successfully" ∧
    json "Email already exists" ≠ json "Registration Failed" ∧
    (register hashSync fault db b1).1.users.length = db.users.length + 1 ∧
    ∃ u, u ∈ (register hashSync none (register hashSync fault db b1).1 b2).1.users ∧
      u.email = b1.email ∧ u.name = b1.name ∧ u.password = hashSync b1.password 10 ∧
      u.role = roleOrDefault b1.role := by
  cases fault with
  | some err =>
    exfalso
    simp only [register, qInsertUser] at h1
    split at h1 <;> simp [json] at h1
  | none =>
    by_cases hex : db.users.any (fun u => decide (u.email = b1.email)) = true
    · exfalso
      simp [register, qInsertUser, hex, json] at h1
    · have hex2 : db.users.any (fun u => decide (u.email = b1.email)) = false := by
        simpa using hex
      have hr1 : register hashSync none db b1
          = ({ db with users := db.users ++
                [⟨(db.users.map User.id).foldl max 0 + 1, b1.name, b1.email,
                  hashSync b1.password 10, roleOrDefault b1.role⟩] },
              json "Registered Successfully") := by
        simp only [register, qInsertUser, hex2]
        rfl
      rw [hr1]
      have hr2 : register hashSync none
          { db with users := db.users ++
              [⟨(db.users.map User.id).foldl max 0 + 1, b1.name, b1.email,
                hashSync b1.password 10, roleOrDefault b1.role⟩] } b2
          = ({ db with users := db.users ++
                [⟨(db.users.map User.id).foldl max 0 + 1, b1.name, b1.email,
                  hashSync b1.password 10, roleOrDefault b1.role⟩] },
              json "Email already exists") := by
        simp [register, qInsertUser, he]
      simp only []
      rw [hr2]
      refine ⟨rfl, by simp [json], by simp [json], by simp, ?_⟩
      exact ⟨⟨(db.users.map User.id).foldl max 0 + 1, b1.name, b1.email,
        hashSync b1.password 10, roleOrDefault b1.role⟩, by simp, rfl, rfl, rfl, rfl⟩

/-- Witness for `register_twice`: a new email registered twice. -/
theorem register_twice_witness :
    ((⟨"Ravi K", "ravi@example.com", "other", some "admin"⟩ : RegisterBody).email
        = (⟨"Ravi", "ravi@example.com", "pw", none⟩ : RegisterBody).email ∧
      (register sampleHash none sampleDb ⟨"Ravi", "ravi@example.com", "pw", none⟩).2
        = json "Registered Successfully") ∧
    (register sampleHash none
        (register sampleHash none sampleDb ⟨"Ravi", "ravi@example.com", "pw", none⟩).1
        ⟨"Ravi K", "ravi@example.com", "other", some "admin"⟩
      = ((register sampleHash none sampleDb ⟨"Ravi", "ravi@example.com", "pw", none⟩).1,
          json "Email already exists") ∧
      json "Email already exists" ≠ json "Registered Successfully" ∧
      json "Email already exists" ≠ json "Registration Failed" ∧
      (register sampleHash none sampleDb ⟨"Ravi", "ravi@example.com", "pw", none⟩).1.users.length
        = sampleDb.users.length + 1 ∧
      ∃ u, u ∈ (register sampleHash none
            (register sampleHash none sampleDb ⟨"Ravi", "ravi@example.com", "pw", none⟩).1
            ⟨"Ravi K", "ravi@example.com", "other", some "admin"⟩).1.users ∧
        u.email = "ravi@example.com" ∧ u.name = "Ravi" ∧ u.password = sampleHash "pw" 10 ∧
        u.role = roleOrDefault none) :=
  ⟨⟨rfl, by decide⟩,
    register_twice sampleHash none sampleDb ⟨"Ravi", "ravi@example.com", "pw", none⟩
      ⟨"Ravi K", "ravi@example.com", "other", some "admin"⟩ rfl (by decide)⟩

end Payroll
